import Mathlib

/-!
Verification of the USCIS scrape-and-report pipeline scripts.

The repository is a family of near-duplicate Node scripts (several variants
inside scripts/uscis_check.cjs and the unnamed sources).  The definitions
below are shallow embeddings of the pure control flow of those scripts:
browser and network effects are passed in as explicit behaviours
(Except-valued functions and response values), and JS string operations
(trim, regex replaces, parseInt, truthiness) are modelled character by
character.
-/

namespace USCIS

/-- JS String.prototype.trim on a character list: drop whitespace from both
ends.  Models the .trim() calls in normalizeBase and the queue handling. -/
def jsTrimChars (cs : List Char) : List Char :=
  ((cs.dropWhile Char.isWhitespace).reverse.dropWhile Char.isWhitespace).reverse

/-- JS String.prototype.trim. -/
def jsTrim (s : String) : String :=
  ⟨jsTrimChars s.data⟩

/-- Boolean suffix test on character lists; used to model the end-anchored
regexes of normalizeBase. -/
def endsWith (cs sfx : List Char) : Bool :=
  decide (cs.reverse.take sfx.length = sfx.reverse)

/-- Models replace with the pattern of one or more final slashes: remove every
trailing '/' character. -/
def stripTrailingSlashes (cs : List Char) : List Char :=
  (cs.reverse.dropWhile (fun c => c == '/')).reverse

/-- Models the second replace of normalizeBase (end-anchored "/api/uscis" with
an optional final slash): the greedy match removes a final "/api/uscis/" if
present, otherwise a final "/api/uscis". -/
def stripApiUscis (cs : List Char) : List Char :=
  if endsWith cs ("/api/uscis/".data) then cs.take (cs.length - 11)
  else if endsWith cs ("/api/uscis".data) then cs.take (cs.length - 10)
  else cs

/-- normalizeBase from scripts/uscis_check.cjs line 9: trim, strip trailing
slashes, then strip a duplicate "/api/uscis" path suffix. -/
def normalizeBase (s : String) : String :=
  ⟨stripApiUscis (stripTrailingSlashes (jsTrimChars s.data))⟩

/-- Longest run of decimal digits at the head of the character list. -/
def leadingDigits (cs : List Char) : List Char :=
  cs.takeWhile (fun c => c.isDigit)

/-- Value of a run of decimal digits. -/
def digitsToNat (cs : List Char) : Nat :=
  cs.foldl (fun a c => a * 10 + (c.toNat - ('0').toNat)) 0

/-- JS parseInt(s, 10): skip leading whitespace, read an optional sign, then
the longest run of decimal digits; none models NaN (no digits at all). -/
def jsParseInt (s : String) : Option Int :=
  let cs := s.data.dropWhile Char.isWhitespace
  let signed : Int × List Char :=
    match cs with
    | '-' :: r => (-1, r)
    | '+' :: r => (1, r)
    | _ => (1, cs)
  let ds := leadingDigits signed.2
  if ds.isEmpty then none else some (signed.1 * (digitsToNat ds : Int))

/-- Default string fed to parseInt (uscis_check.cjs line 25): the expression
QUEUE_LIMIT or-else '10', where an unset or empty env var is falsy. -/
def rawQueueLimitEnv (env : Option String) : String :=
  match env with
  | none => "10"
  | some s => if s = "" then "10" else s

/-- The guard on line 26: reset to 10 unless the parse produced a finite
number in [1, 100] (none models NaN / non-finite). -/
def queueLimitClamp (r : Option Int) : Int :=
  match r with
  | none => 10
  | some v => if v < 1 ∨ 100 < v then 10 else v

/-- queueLimit as computed by scripts/uscis_check.cjs lines 25–26. -/
def effectiveQueueLimit (env : Option String) : Int :=
  queueLimitClamp (jsParseInt (rawQueueLimitEnv env))

/-- Receipt normalization at the top of scrapeCase (uscis_check.cjs lines
206–208): remove all whitespace, then uppercase. -/
def normalizeReceipt (raw : String) : String :=
  ⟨(raw.data.filter (fun c => !c.isWhitespace)).map Char.toUpper⟩

/-- JS "o || dflt" on an optional string (null, undefined and "" are falsy). -/
def jsOr (o : Option String) (dflt : String) : String :=
  match o with
  | some s => if s = "" then dflt else s
  | none => dflt

/-- JS "o || null" on an optional string. -/
def jsOrNull (o : Option String) : Option String :=
  match o with
  | some s => if s = "" then none else some s
  | none => none

/-- Return shape of tryDirectResults / tryFormFlow (uscis_check.cjs lines
139–204). -/
structure FlowOutcome where
  ok : Bool
  status : Option String
  details : Option String
  error : Option String
  html : Option String

/-- The result object built by scrapeCase (uscis_check.cjs line 208). -/
structure CaseResult where
  receipt_number : String
  ok : Bool
  status : Option String
  details : Option String
  error : Option String
  fullPageHtml : Option String

/-- Fresh scrapeCase result object for a (normalized) receipt. -/
def baseCase (rn : String) : CaseResult :=
  { receipt_number := rn, ok := false, status := none, details := none,
    error := none, fullPageHtml := none }

/-- Form-flow half of scrapeCase (uscis_check.cjs lines 220–229).  The list
component is the trace of receipt values handed to the lookups so far
(tryDirectResults already ran once). -/
def scrapeCaseForm (rn : String)
    (tryForm : String → Except String FlowOutcome) (pageContent : Option String) :
    CaseResult × List String :=
  match tryForm rn with
  | Except.error e =>
      ({ (baseCase rn) with error := some e, fullPageHtml := pageContent }, [rn, rn])
  | Except.ok viaForm =>
      if viaForm.ok then
        ({ (baseCase rn) with
            ok := true
            status := viaForm.status
            details := viaForm.details
            fullPageHtml := viaForm.html }, [rn, rn])
      else
        ({ (baseCase rn) with
            error := some (jsOr viaForm.error ("Unknown error"))
            fullPageHtml := jsOrNull viaForm.html }, [rn, rn])

/-- Body of scrapeCase after receipt normalization (uscis_check.cjs lines
210–235).  tryDirect / tryForm are the behaviours of tryDirectResults /
tryFormFlow on this page (Except.error models a thrown exception, caught at
line 230); pageContent models page.content() in the catch block. -/
def scrapeCaseGo (tryDirect : String → Except String (Option FlowOutcome))
    (tryForm : String → Except String FlowOutcome)
    (pageContent : Option String) (rn : String) : CaseResult × List String :=
  match tryDirect rn with
  | Except.error e =>
      ({ (baseCase rn) with error := some e, fullPageHtml := pageContent }, [rn])
  | Except.ok (some direct) =>
      if direct.ok then
        ({ (baseCase rn) with
            ok := true
            status := direct.status
            details := direct.details
            fullPageHtml := direct.html }, [rn])
      else
        scrapeCaseForm rn tryForm pageContent
  | Except.ok none =>
      scrapeCaseForm rn tryForm pageContent

/-- scrapeCase (uscis_check.cjs lines 206–236).  The second component is the
trace of receipt values passed to the site lookups. -/
def scrapeCase (tryDirect : String → Except String (Option FlowOutcome))
    (tryForm : String → Except String FlowOutcome)
    (pageContent : Option String) (receiptNumberRaw : String) :
    CaseResult × List String :=
  scrapeCaseGo tryDirect tryForm pageContent (normalizeReceipt receiptNumberRaw)

/-- State of the first element matched by a selector on the current page:
not in the DOM, in the DOM but not visible, or visible. -/
inductive ElemState
  | absent
  | hidden
  | visible
deriving DecidableEq

/-- firstVisible (part_003 lines 488–497): try each candidate selector in
declared order; a candidate whose element never becomes visible within its
per-selector timeout is skipped; the first visible one is returned. -/
def firstVisible (page : String → ElemState) : List String → Option String
  | [] => none
  | sel :: rest =>
      if page sel = ElemState.visible then some sel else firstVisible page rest

/-- What one probe of the passCloudflare polling loop sees (part_003 lines
462–473): whether the receipt input is visible, and whether the Cloudflare
challenge signature (title or challenge widgets) is on. -/
structure ProbeView where
  inputVisible : Bool
  challengeOn : Bool

/-- Sleep taken at the end of one polling cycle (part_003 lines 475–483):
800 ms when no challenge signature is showing, else 1500 ms plus a random
jitter below 900 ms. -/
def probeDelay (v : ProbeView) (jitterMs : Nat) : Nat :=
  if v.challengeOn then 1500 + jitterMs % 900 else 800

/-- The while-loop of passCloudflare (part_003 lines 459–486 and part_004
lines 143–165): while elapsed < maxWaitMs, probe; return true as soon as the
receipt input is visible, false once the ceiling is reached.  page gives the
k-th probe's view, jit the k-th random jitter; the second component is the
elapsed time at return. -/
def passCloudflareGo (page : Nat → ProbeView) (jit : Nat → Nat) (maxWaitMs : Nat)
    (k elapsed : Nat) : Bool × Nat :=
  if _h : elapsed < maxWaitMs then
    if (page k).inputVisible then (true, elapsed)
    else passCloudflareGo page jit maxWaitMs (k + 1)
      (elapsed + probeDelay (page k) (jit k))
  else (false, elapsed)
termination_by maxWaitMs - elapsed
decreasing_by
  have hp : 0 < probeDelay (page k) (jit k) := by
    unfold probeDelay
    split <;> omega
  omega

/-- passCloudflare (part_003 lines 459–486): run the polling loop from a fresh
start. -/
def passCloudflare (page : Nat → ProbeView) (jit : Nat → Nat) (maxWaitMs : Nat) : Bool :=
  (passCloudflareGo page jit maxWaitMs 0 0).1

/-- Page behaviour whose challenge signature never clears. -/
def neverClearPage : Nat → ProbeView :=
  fun _ => { inputVisible := false, challengeOn := true }

/-- Page behaviour that clears (input becomes visible) from the third probe
cycle on. -/
def clearsAtTwoPage : Nat → ProbeView :=
  fun k => { inputVisible := decide (2 ≤ k), challengeOn := true }

/-- Demo page for the selector resolvers: the first two candidates are
present but hidden, the third is visible. -/
def demoPage : String → ElemState :=
  fun sel =>
    if sel = "#a" then ElemState.hidden
    else if sel = "#b" then ElemState.hidden
    else if sel = "#c" then ElemState.visible
    else ElemState.absent

/-- locator(sel).count() for the first matched element: 0 when the selector
matches nothing, 1 when an element is in the DOM — visible or not. -/
def locatorCount (st : ElemState) : Nat :=
  match st with
  | ElemState.absent => 0
  | ElemState.hidden => 1
  | ElemState.visible => 1

/-- Input resolution of tryFormFlow (uscis_check.cjs lines 160–170): each
candidate is tested by locator count() — presence in the DOM, visibility
ignored — and the first present one is filled and the loop breaks (a failing
fill is swallowed by .catch).  none models the 'Receipt input not found'
throw. -/
def firstPresent (page : String → ElemState) : List String → Option String
  | [] => none
  | sel :: rest =>
      if locatorCount (page sel) > 0 then some sel else firstPresent page rest

/-- A normalized queue item: correlation key and receipt number
(uscis_check.cjs lines 266–281). -/
structure QueueItem where
  tramite_id : Option Int
  receipt_number : String

/-- JS truthiness of a tramite id (null, undefined and 0 are falsy). -/
def truthyId : Option Int → Bool
  | none => false
  | some v => !(v == 0)

/-- The fields of a scrapeCase result read by the main loop. -/
structure ScrapeResult where
  ok : Bool
  error : Option String
  fullPageHtml : Option String

/-- Entry of the success batch: { tramite_id, html }. -/
structure SuccessItem where
  tramite_id : Int
  html : String

/-- Entry of the failure batch: { receipt_number, error }. -/
structure FailedItem where
  receipt_number : String
  error : String

/-- The per-item loop of the main IIFE (uscis_check.cjs lines 293–310): an ok
result with a truthy tramite_id is pushed to successItems, a non-ok result to
failedItems; an ok result whose tramite_id is falsy is pushed to neither. -/
def processQueue (scrape : QueueItem → ScrapeResult) :
    List QueueItem → List SuccessItem × List FailedItem
  | [] => ([], [])
  | item :: rest =>
      let result := scrape item
      let restOut := processQueue scrape rest
      if result.ok && truthyId item.tramite_id then
        ({ tramite_id := item.tramite_id.getD 0,
           html := jsOr result.fullPageHtml "" } :: restOut.1, restOut.2)
      else if !result.ok then
        (restOut.1,
         { receipt_number := item.receipt_number,
           error := jsOr result.error ("Unknown error") } :: restOut.2)
      else restOut

/-- Scrape behaviour that succeeds on every item with a fixed result page. -/
def okScrape : QueueItem → ScrapeResult :=
  fun _ => { ok := true, error := none, fullPageHtml := some ("<html>ok</html>") }

/-- Behaviour of the two lookup flows for one queue item in the part_001
variant; Except.error models a thrown exception. -/
structure ItemBeh where
  direct : Except String (Option String)
  form : Except String String

/-- Classified outcome of one iteration of the part_001 main loop. -/
inductive Outcome
  | skipped
  | success (tramite_id : Int) (html : String)
  | failure (receipt_number : String) (error : String)
deriving DecidableEq

/-- Classification of a looked-up html value (part_001 lines 346–353). -/
def classifyHtml (tramiteId : Option Int) (receipt html : String) : Outcome :=
  if html != "" && truthyId tramiteId then
    Outcome.success (tramiteId.getD 0) html
  else if html != "" then
    Outcome.failure receipt ("Missing tramite_id in queue item")
  else
    Outcome.failure receipt ("No status content found")

/-- Try block of one part_001 loop iteration (lines 332–353): the direct
lookup first, falling back to the form flow when it yields nothing; a thrown
exception (Except.error, caught at lines 354–359) becomes a failure entry. -/
def itemOutcomeCore (tramiteId : Option Int) (receipt : String) :
    Except String (Option String) → Except String String → Outcome
  | Except.error e, _ => Outcome.failure receipt e
  | Except.ok d, form =>
      if jsOr d "" != "" then classifyHtml tramiteId receipt (jsOr d "")
      else
        match form with
        | Except.error e => Outcome.failure receipt e
        | Except.ok h => classifyHtml tramiteId receipt h

/-- One iteration of the part_001 main loop (lines 323–363): items whose
trimmed receipt is empty are skipped; everything else is classified by the
try/catch body. -/
def itemOutcome (beh : ItemBeh) (tramiteId : Option Int) (receiptRaw : String) : Outcome :=
  if jsTrim receiptRaw = "" then Outcome.skipped
  else itemOutcomeCore tramiteId (jsTrim receiptRaw) beh.direct beh.form

/-- The whole part_001 item loop, with the per-item flow behaviour supplied
alongside each queue item. -/
def runLoop : List (QueueItem × ItemBeh) → List SuccessItem × List FailedItem
  | [] => ([], [])
  | (item, beh) :: rest =>
      let restOut := runLoop rest
      match itemOutcome beh item.tramite_id item.receipt_number with
      | Outcome.skipped => restOut
      | Outcome.success tid h =>
          ({ tramite_id := tid, html := h } :: restOut.1, restOut.2)
      | Outcome.failure r e =>
          (restOut.1, { receipt_number := r, error := e } :: restOut.2)

/-- JS nullish coalescing a ?? b on optional ids. -/
def jsNullish (a b : Option Int) : Option Int :=
  match a with
  | some v => some v
  | none => b

/-- Raw queue entry as delivered by the API. -/
structure TramiteEntry where
  tramite_id : Option Int
  id : Option Int
  receipt_number : Option String

/-- Queue response body; a field is some when that array key is present. -/
structure QueuePayload where
  tramites : Option (List TramiteEntry)
  receipts : Option (List String)
  queue : Option (List TramiteEntry)

/-- Outcome of one queue fetch at the HTTP level. -/
inductive ApiResp
  | success (payload : QueuePayload)
  | malformedBody
  | httpError (status : Nat) (body : String)
  | networkError (msg : String)

/-- The empty JSON object {}. -/
def emptyPayload : QueuePayload :=
  { tramites := none, receipts := none, queue := none }

/-- getJson (uscis_check.cjs lines 37–50): throws on a non-2xx response or a
network error; a 2xx whose body is not valid JSON resolves to {} through the
.catch on res.json(). -/
def getJson (resp : ApiResp) : Except String QueuePayload :=
  match resp with
  | ApiResp.success p => Except.ok p
  | ApiResp.malformedBody => Except.ok emptyPayload
  | ApiResp.httpError status body =>
      Except.error ("GET failed: " ++ toString status ++ " — " ++ body)
  | ApiResp.networkError msg => Except.error msg

/-- getQueueFromApi (uscis_check.cjs lines 84–92): soft-fail — any getJson
exception is caught, logged, and replaced by { tramites: [] }. -/
def getQueueFromApi (resp : ApiResp) : QueuePayload :=
  match getJson resp with
  | Except.ok p => p
  | Except.error _ => { tramites := some [], receipts := none, queue := none }

/-- Queue normalization of the main IIFE (uscis_check.cjs lines 266–281):
accept a tramites array (tramite_id ?? id ?? null, trimmed receipt) or a bare
receipts array, dropping entries with an empty receipt. -/
def normalizeQueue (payload : QueuePayload) : List QueueItem :=
  match payload.tramites with
  | some ts =>
      (ts.map (fun t =>
        ({ tramite_id := jsNullish t.tramite_id t.id,
           receipt_number := jsTrim ((t.receipt_number).getD "") } : QueueItem))).filter
        (fun it => it.receipt_number != "")
  | none =>
      match payload.receipts with
      | some rs =>
          (rs.map (fun r =>
            ({ tramite_id := none, receipt_number := jsTrim r } : QueueItem))).filter
            (fun it => it.receipt_number != "")
      | none => []

/-- Queue-size gate of the main IIFE (lines 283–288): some c means the
process exits with code c before scraping ("nothing to do"); none means the
queue is nonempty and the run continues. -/
def variant1QueueExit (resp : ApiResp) : Option Nat :=
  if (normalizeQueue (getQueueFromApi resp)).isEmpty then some 0 else none

/-- Queue fetch of the "manejo de errores mejorado" variant of
uscis_check.cjs (lines 740–758): a fetch error, a non-2xx status or a
malformed body is caught by the FATAL handler and exits 1; an empty queue
exits 0; otherwise the run continues (none). -/
def variant3QueueExit (resp : ApiResp) : Option Nat :=
  match resp with
  | ApiResp.success p => if ((p.queue).getD []).isEmpty then some 0 else none
  | _ => some 1

/-- HTTP-level response to a report POST. -/
structure FetchResp where
  ok : Bool
  status : Nat

/-- reportToApi (uscis_check.cjs lines 717–737): nothing is sent for an empty
batch; a non-2xx response and a thrown fetch error are both caught and only
logged.  Returns the emitted log lines; it never throws. -/
def reportToApi (endpointName : String) (nItems : Nat)
    (resp : Except String FetchResp) : List String :=
  if nItems = 0 then []
  else
    ("Reporting " ++ toString nItems ++ " items to " ++ endpointName ++ "...") ::
      (match resp with
       | Except.error e =>
           [("Network Error: Could not report to " ++ endpointName ++ ": " ++ e)]
       | Except.ok r =>
           if r.ok then []
           else [("API Error: Failed to report to " ++ endpointName
                    ++ ". Status: " ++ toString r.status)])

/-- Report tail of that variant's main IIFE (lines 796–801): both reportToApi
calls return normally whatever the POST outcomes, so the run always reaches
browser.close() and ends with exit code 0 (the first component); the second
component is the combined log. -/
def variant3ReportRun (nSuccess nFailed : Nat)
    (respS respF : Except String FetchResp) : Nat × List String :=
  (0, reportToApi ("report") nSuccess respS
        ++ reportToApi ("report-failed") nFailed respF)

/-- Report phase of the part_001 variant (lines 366–396): a failing
success-batch POST closes the browser and is rethrown; a failing
failure-batch POST is caught and logged as a warning.  Except.error models an
exception escaping main; Except.ok carries the warning log. -/
def part001ReportPhase (nSuccess nFailed : Nat)
    (postS postF : Except String Unit) : Except String (List String) :=
  match (if 0 < nSuccess then postS else Except.ok ()) with
  | Except.error e => Except.error e
  | Except.ok _ =>
      if 0 < nFailed then
        match postF with
        | Except.error e =>
            Except.ok [("Warn: reporting failures failed — " ++ e)]
        | Except.ok _ => Except.ok []
      else Except.ok []

/-- Exit code of the part_001 run after reporting: the final .catch handler
(lines 400–403) exits 1 on an escaped error, otherwise the process ends 0. -/
def part001ExitCode (nSuccess nFailed : Nat)
    (postS postF : Except String Unit) : Nat :=
  match part001ReportPhase nSuccess nFailed postS postF with
  | Except.error _ => 1
  | Except.ok _ => 0

/-- Result extraction of fetchCaseHtml (part_006 lines 102–119, also
uscis_check.cjs lines 1122–1141): walk the result selectors in order; the
first matched container whose trimmed outerHTML is longer than 200 characters
is returned; otherwise fall back to the full page HTML.  containers holds the
matched element's outerHTML per selector (none = no match). -/
def fetchCaseHtmlResult (containers : List (Option String)) (fullHtml : String) : String :=
  match containers with
  | [] => fullHtml
  | none :: rest => fetchCaseHtmlResult rest fullHtml
  | some h :: rest =>
      if h != "" && 200 < (jsTrim h).length then h
      else fetchCaseHtmlResult rest fullHtml

/-- Per-item validation in the caller loop (part_006 lines 136–144): the
looked-up html is rejected — the item is classified Failed — exactly when it
is empty or shorter than 200 characters; otherwise the item is a Success
carrying that html. -/
def classifyScrape (containers : List (Option String)) (fullHtml : String) :
    Except String String :=
  if fetchCaseHtmlResult containers fullHtml = ""
      ∨ (fetchCaseHtmlResult containers fullHtml).length < 200 then
    Except.error ("HTML de resultado demasiado corto.")
  else Except.ok (fetchCaseHtmlResult containers fullHtml)

/-- A 300-character result page. -/
def longHtml : String := String.mk (List.replicate 300 'x')

end USCIS

namespace USCIS

theorem stripTrailingSlashes_eq_self (cs : List Char)
    (h : endsWith cs (['/']) = false) : stripTrailingSlashes cs = cs := by
  unfold stripTrailingSlashes
  cases hr : cs.reverse with
  | nil =>
      have : cs = [] := by
        have := congrArg List.reverse hr
        simpa using this
      simp [this]
  | cons c t =>
      have hc : (c == '/') = false := by
        unfold endsWith at h
        rw [hr] at h
        simp only [List.take] at h
        by_contra hb
        have hcq : c = '/' := by
          cases hbeq : c == '/' with
          | true => exact eq_of_beq hbeq
          | false => exact absurd hbeq hb
        rw [hcq] at h
        simp at h
      rw [List.dropWhile_cons, hc]
      simp only [Bool.false_eq_true, if_false]
      have hcs := congrArg List.reverse hr
      simp only [List.reverse_reverse] at hcs
      exact hcs.symm

theorem endsWith_slash_of_api_slash (cs : List Char)
    (h : endsWith cs ("/api/uscis/".data) = true) : endsWith cs (['/']) = true := by
  unfold endsWith at h ⊢
  rw [decide_eq_true_eq] at h
  rw [decide_eq_true_eq]
  cases hr : cs.reverse with
  | nil =>
      rw [hr] at h
      exact absurd h (by decide)
  | cons c t =>
      rw [hr] at h
      have hlen : ("/api/uscis/".data).length = 11 := by decide
      have hrev : ("/api/uscis/".data).reverse
          = '/' :: ['s', 'i', 'c', 's', 'u', '/', 'i', 'p', 'a', '/'] := by decide
      rw [hlen, hrev, List.take_succ_cons] at h
      have hc : c = '/' := ((List.cons.injEq _ _ _ _).mp h).1
      simp [hc]

theorem stripApiUscis_eq_self (cs : List Char)
    (h2 : endsWith cs (['/']) = false)
    (h3 : endsWith cs ("/api/uscis".data) = false) : stripApiUscis cs = cs := by
  have h1 : endsWith cs ("/api/uscis/".data) = false := by
    cases hb : endsWith cs ("/api/uscis/".data) with
    | false => rfl
    | true => rw [endsWith_slash_of_api_slash cs hb] at h2; exact absurd h2 (by simp)
  unfold stripApiUscis
  rw [h1, h3]
  simp

/-- C5 (amended): normalizeBase leaves unchanged every string that is already
trimmed, has no trailing slash, and does not end with the duplicate
"/api/uscis" path suffix.  (Full idempotence of normalizeBase is false: see
normalizeBase_not_idempotent.) -/
theorem normalizeBase_noop (s : String)
    (h1 : jsTrim s = s)
    (h2 : endsWith s.data (['/']) = false)
    (h3 : endsWith s.data ("/api/uscis".data) = false) :
    normalizeBase s = s := by
  have hd : jsTrimChars s.data = s.data := congrArg String.data h1
  unfold normalizeBase
  rw [hd, stripTrailingSlashes_eq_self _ h2, stripApiUscis_eq_self _ h2 h3]

/-- Witness for normalizeBase_noop at a concrete already-normalized URL. -/
theorem normalizeBase_noop_witness :
    jsTrim ("https://api.example.test") = "https://api.example.test"
    ∧ normalizeBase ("https://api.example.test") = "https://api.example.test" :=
  ⟨by decide,
   normalizeBase_noop ("https://api.example.test") (by decide) (by decide) (by decide)⟩

/-- C5 counterexample: normalizeBase is not idempotent.  On "a//api/uscis" the
suffix strip exposes a new trailing slash: one application gives "a/", a second
application gives "a". -/
theorem normalizeBase_not_idempotent :
    normalizeBase (normalizeBase ("a//api/uscis")) ≠ normalizeBase ("a//api/uscis") := by
  decide

theorem queueLimitClamp_range (r : Option Int) :
    1 ≤ queueLimitClamp r ∧ queueLimitClamp r ≤ 100 := by
  cases r with
  | none => exact ⟨by decide, by decide⟩
  | some v =>
      unfold queueLimitClamp
      by_cases hv : v < 1 ∨ 100 < v
      · simp only [hv, if_true]; omega
      · simp only [hv, if_false]; omega

/-- C10: the effective queue limit is always an integer in [1, 100]; an unset
QUEUE_LIMIT, a parse to NaN, or a parsed value below 1 or above 100 all fall
back to the default 10. -/
theorem effectiveQueueLimit_spec (env : Option String) :
    (1 ≤ effectiveQueueLimit env ∧ effectiveQueueLimit env ≤ 100)
    ∧ effectiveQueueLimit none = 10
    ∧ (∀ s : String, jsParseInt s = none → effectiveQueueLimit (some s) = 10)
    ∧ (∀ (s : String) (v : Int), jsParseInt s = some v → (v < 1 ∨ 100 < v) →
        effectiveQueueLimit (some s) = 10) := by
  refine ⟨queueLimitClamp_range _, by decide, ?_, ?_⟩
  · intro s hs
    by_cases h0 : s = ""
    · subst h0; decide
    · unfold effectiveQueueLimit rawQueueLimitEnv
      simp only [h0, if_false]
      rw [hs]
      decide
  · intro s v hv hrange
    have h0 : s ≠ "" := by
      intro h
      subst h
      rw [show jsParseInt "" = none from by decide] at hv
      exact Option.noConfusion hv
    unfold effectiveQueueLimit rawQueueLimitEnv
    simp only [h0, if_false]
    rw [hv]
    unfold queueLimitClamp
    simp [hrange]

/-- Witness for effectiveQueueLimit_spec: a non-numeric and an out-of-range
QUEUE_LIMIT both yield the default 10. -/
theorem effectiveQueueLimit_spec_witness :
    jsParseInt ("abc") = none ∧ effectiveQueueLimit (some ("abc")) = 10
    ∧ jsParseInt ("500") = some 500 ∧ effectiveQueueLimit (some ("500")) = 10 :=
  ⟨by decide, (effectiveQueueLimit_spec (some ("abc"))).2.2.1 "abc" (by decide),
   by decide,
   (effectiveQueueLimit_spec (some ("500"))).2.2.2 "500" 500 (by decide) (by decide)⟩

theorem scrapeCaseGo_receipt (tryDirect : String → Except String (Option FlowOutcome))
    (tryForm : String → Except String FlowOutcome)
    (pageContent : Option String) (rn : String) :
    (scrapeCaseGo tryDirect tryForm pageContent rn).1.receipt_number = rn
    ∧ ∀ r ∈ (scrapeCaseGo tryDirect tryForm pageContent rn).2, r = rn := by
  unfold scrapeCaseGo scrapeCaseForm baseCase
  cases hd : tryDirect rn with
  | error e => simp
  | ok d =>
      cases d with
      | none =>
          cases hf : tryForm rn with
          | error e => simp
          | ok viaForm => by_cases hok : viaForm.ok <;> simp [hok]
      | some direct =>
          by_cases hok : direct.ok
          · simp [hok]
          · simp only [hok, Bool.false_eq_true, if_false]
            cases hf : tryForm rn with
            | error e => simp
            | ok viaForm => by_cases hok2 : viaForm.ok <;> simp [hok2]

/-- C9: scrapeCase strips all whitespace from the raw receipt and uppercases
it before any lookup; that normalized receipt (not the raw queue value) is
passed to both site lookups and stored in the reported outcome. -/
theorem scrapeCase_uses_normalized_receipt
    (tryDirect : String → Except String (Option FlowOutcome))
    (tryForm : String → Except String FlowOutcome)
    (pageContent : Option String) (receiptNumberRaw : String) :
    (scrapeCase tryDirect tryForm pageContent receiptNumberRaw).1.receipt_number
      = normalizeReceipt receiptNumberRaw
    ∧ ∀ r ∈ (scrapeCase tryDirect tryForm pageContent receiptNumberRaw).2,
        r = normalizeReceipt receiptNumberRaw := by
  unfold scrapeCase
  exact scrapeCaseGo_receipt tryDirect tryForm pageContent
    (normalizeReceipt receiptNumberRaw)

/-- Witness for scrapeCase_uses_normalized_receipt: the raw receipt
" msc 123 " is looked up and reported as "MSC123". -/
theorem scrapeCase_uses_normalized_receipt_witness :
    ("MSC123" : String) ∈ (scrapeCase (fun _ => Except.error ("goto failed"))
        (fun _ => Except.error ("goto failed")) none (" msc 123 ")).2
    ∧ "MSC123" = normalizeReceipt (" msc 123 ") :=
  ⟨by decide,
   (scrapeCase_uses_normalized_receipt (fun _ => Except.error ("goto failed"))
      (fun _ => Except.error ("goto failed")) none (" msc 123 ")).2 "MSC123" (by decide)⟩

/-- C7 counterexample: the tryFormFlow input chain resolves by presence, not
visibility — on a page whose first candidate is present but hidden and whose
third candidate is the only visible one, it selects the first candidate, not
the third, contradicting the claimed first-visible-match rule. -/
theorem tryFormFlow_selects_present_hidden :
    demoPage "#a" = ElemState.hidden ∧ demoPage "#c" = ElemState.visible
    ∧ firstPresent demoPage ["#a", "#b", "#c"] = some "#a"
    ∧ firstPresent demoPage ["#a", "#b", "#c"] ≠ some "#c" := by
  refine ⟨by decide, by decide, by decide, by decide⟩

/-- C7 (amended): the firstVisible resolver of part_003 tries the candidate
selectors strictly in declared order and returns the first visible one — with
the first two candidates present but hidden and the third visible, it returns
exactly the third; the presence-based chains (tryFormFlow's input lookup and
part_000's submit lookup) instead select the first present candidate even
when it is hidden. -/
theorem firstVisible_picks_third (page : String → ElemState)
    (s1 s2 s3 : String) (rest : List String)
    (h1 : page s1 = ElemState.hidden) (h2 : page s2 = ElemState.hidden)
    (h3 : page s3 = ElemState.visible) :
    firstVisible page (s1 :: s2 :: s3 :: rest) = some s3 := by
  simp [firstVisible, h1, h2, h3]

/-- Witness for firstVisible_picks_third on the demo page. -/
theorem firstVisible_picks_third_witness :
    demoPage "#a" = ElemState.hidden ∧ demoPage "#c" = ElemState.visible
    ∧ firstVisible demoPage ["#a", "#b", "#c", "#d"] = some "#c" :=
  ⟨by decide, by decide,
   firstVisible_picks_third demoPage "#a" "#b" "#c" ["#d"]
     (by decide) (by decide) (by decide)⟩

theorem probeDelay_le (v : ProbeView) (j : Nat) : probeDelay v j ≤ 2399 := by
  unfold probeDelay
  split
  · have : j % 900 < 900 := Nat.mod_lt _ (by omega)
    omega
  · omega

theorem passCloudflareGo_never (page : Nat → ProbeView) (jit : Nat → Nat)
    (maxWaitMs : Nat) (hp : ∀ k, (page k).inputVisible = false) :
    ∀ fuel k elapsed, maxWaitMs - elapsed ≤ fuel →
      (passCloudflareGo page jit maxWaitMs k elapsed).1 = false := by
  intro fuel
  induction fuel with
  | zero =>
      intro k elapsed h
      rw [passCloudflareGo]
      have hlt : ¬ elapsed < maxWaitMs := by omega
      simp [hlt]
  | succ n ih =>
      intro k elapsed h
      rw [passCloudflareGo]
      by_cases hlt : elapsed < maxWaitMs
      · simp only [hlt, dif_pos, hp k, Bool.false_eq_true, if_false]
        refine ih (k + 1) _ ?_
        have hd : 0 < probeDelay (page k) (jit k) := by
          unfold probeDelay
          split <;> omega
        omega
      · simp [hlt]

theorem passCloudflareGo_clears (page : Nat → ProbeView) (jit : Nat → Nat)
    (maxWaitMs j : Nat)
    (hbefore : ∀ i, i < j → (page i).inputVisible = false)
    (hj : (page j).inputVisible = true)
    (hbudget : 2399 * j < maxWaitMs) :
    ∀ d k elapsed, k + d = j → elapsed ≤ 2399 * k →
      (passCloudflareGo page jit maxWaitMs k elapsed).1 = true
      ∧ (passCloudflareGo page jit maxWaitMs k elapsed).2 ≤ 2399 * j := by
  intro d
  induction d with
  | zero =>
      intro k elapsed hk he
      have hkj : k = j := by omega
      subst hkj
      have hlt : elapsed < maxWaitMs := by omega
      rw [passCloudflareGo, dif_pos hlt, hj, if_pos rfl]
      exact ⟨rfl, by omega⟩
  | succ n ih =>
      intro k elapsed hk he
      have hklt : k < j := by omega
      have hvis : (page k).inputVisible = false := hbefore k hklt
      have hmul : 2399 * k ≤ 2399 * j := Nat.mul_le_mul_left _ (by omega)
      have hlt : elapsed < maxWaitMs := by omega
      rw [passCloudflareGo]
      simp only [hlt, dif_pos, hvis, Bool.false_eq_true, if_false]
      refine ih (k + 1) (elapsed + probeDelay (page k) (jit k)) (by omega) ?_
      have hdle : probeDelay (page k) (jit k) ≤ 2399 := probeDelay_le _ _
      have : 2399 * (k + 1) = 2399 * k + 2399 := by ring
      omega

/-- C8: passCloudflare is bounded.  On a page whose challenge signature never
clears it returns false once maxWaitMs has elapsed (it cannot loop forever:
every probe cycle consumes at least 800 ms).  On a page that clears at probe
j within the time budget it returns true, at an elapsed time of at most
2399·j ms — strictly before the full ceiling. -/
theorem passCloudflare_bounded (page : Nat → ProbeView) (jit : Nat → Nat)
    (maxWaitMs j : Nat) :
    ((∀ k, (page k).inputVisible = false) →
        passCloudflare page jit maxWaitMs = false)
    ∧ ((∀ i, i < j → (page i).inputVisible = false) →
        (page j).inputVisible = true → 2399 * j < maxWaitMs →
        passCloudflare page jit maxWaitMs = true
        ∧ (passCloudflareGo page jit maxWaitMs 0 0).2 ≤ 2399 * j) := by
  constructor
  · intro hp
    exact passCloudflareGo_never page jit maxWaitMs hp (maxWaitMs - 0) 0 0 (by omega)
  · intro h1 h2 h3
    exact passCloudflareGo_clears page jit maxWaitMs j h1 h2 h3 j 0 0 (by omega) (by omega)

/-- Witness for passCloudflare_bounded: a never-clearing page yields false at
a 60 s ceiling; a page clearing at the third probe yields true. -/
theorem passCloudflare_bounded_witness :
    passCloudflare neverClearPage (fun _ => 0) 60000 = false
    ∧ passCloudflare clearsAtTwoPage (fun _ => 0) 60000 = true :=
  ⟨(passCloudflare_bounded neverClearPage (fun _ => 0) 60000 0).1 (fun _ => rfl),
   ((passCloudflare_bounded clearsAtTwoPage (fun _ => 0) 60000 2).2
      (fun i hi => by
        unfold clearsAtTwoPage
        simp only [decide_eq_false_iff_not]
        omega)
      (by decide) (by decide)).1⟩

/-- C1 counterexample: a queue item whose scrape succeeds but whose
tramite_id is null is pushed to neither batch — one accepted item, zero
classified outcomes. -/
theorem processQueue_drops_ok_item_without_id :
    (processQueue okScrape [{ tramite_id := none, receipt_number := "MSC2119251999" }]).1.length
      + (processQueue okScrape [{ tramite_id := none, receipt_number := "MSC2119251999" }]).2.length
      = 0
    ∧ ([({ tramite_id := none, receipt_number := "MSC2119251999" } : QueueItem)]).length = 1 := by
  constructor <;> rfl

/-- C1 (amended): the loop drops exactly the items whose scrape is ok but
whose tramite_id is falsy; every other item yields exactly one entry in the
success or failure batch, so the two batch sizes sum to the number of items
that are not ok-without-id. -/
theorem processQueue_partition (scrape : QueueItem → ScrapeResult)
    (queue : List QueueItem) :
    (processQueue scrape queue).1.length + (processQueue scrape queue).2.length
      = (queue.filter
          (fun item => !(scrape item).ok || truthyId item.tramite_id)).length := by
  induction queue with
  | nil => rfl
  | cons item rest ih =>
      simp only [processQueue, List.filter_cons]
      cases hok : (scrape item).ok <;> cases htr : truthyId item.tramite_id <;>
        simp [hok, htr, ih] <;> omega

theorem classifyHtml_ne_skipped (tramiteId : Option Int) (receipt html : String) :
    classifyHtml tramiteId receipt html ≠ Outcome.skipped := by
  unfold classifyHtml
  split
  · simp
  · split <;> simp

theorem itemOutcomeCore_ne_skipped (tramiteId : Option Int) (receipt : String)
    (direct : Except String (Option String)) (form : Except String String) :
    itemOutcomeCore tramiteId receipt direct form ≠ Outcome.skipped := by
  cases direct with
  | error e => simp [itemOutcomeCore]
  | ok d =>
      simp only [itemOutcomeCore]
      split
      · exact classifyHtml_ne_skipped _ _ _
      · cases form with
        | error e => simp
        | ok hh => exact classifyHtml_ne_skipped _ _ _

theorem itemOutcome_of_empty (beh : ItemBeh) (tramiteId : Option Int)
    (receiptRaw : String) (h : jsTrim receiptRaw = "") :
    itemOutcome beh tramiteId receiptRaw = Outcome.skipped := by
  unfold itemOutcome
  rw [if_pos h]

theorem itemOutcome_ne_skipped (beh : ItemBeh) (tramiteId : Option Int)
    (receiptRaw : String) (h : jsTrim receiptRaw ≠ "") :
    itemOutcome beh tramiteId receiptRaw ≠ Outcome.skipped := by
  unfold itemOutcome
  rw [if_neg h]
  exact itemOutcomeCore_ne_skipped _ _ _ _

/-- C2: per-item exceptions are caught at the orchestrator boundary.  For any
behaviour of the lookup flows — including ones that always throw — every item
with a nonempty trimmed receipt yields exactly one entry in the success or
failure batch, and an item whose lookup throws is converted into a failure
entry carrying the exception message, so the loop always continues. -/
theorem runLoop_converts_exceptions (pairs : List (QueueItem × ItemBeh)) :
    ((runLoop pairs).1.length + (runLoop pairs).2.length
      = (pairs.filter (fun p => !(jsTrim p.1.receipt_number == ""))).length)
    ∧ (∀ (tramiteId : Option Int) (receiptRaw e : String)
        (form : Except String String),
        jsTrim receiptRaw ≠ "" →
        itemOutcome { direct := Except.error e, form := form } tramiteId receiptRaw
          = Outcome.failure (jsTrim receiptRaw) e) := by
  constructor
  · induction pairs with
    | nil => rfl
    | cons p rest ih =>
        obtain ⟨item, beh⟩ := p
        simp only [runLoop, List.filter_cons]
        by_cases h : jsTrim item.receipt_number = ""
        · rw [itemOutcome_of_empty beh item.tramite_id _ h]
          simp [h, ih]
        · have hne := itemOutcome_ne_skipped beh item.tramite_id _ h
          cases hout : itemOutcome beh item.tramite_id item.receipt_number with
          | skipped => exact absurd hout hne
          | success tid hh =>
              simp only [hout, List.length_cons, h, not_false_iff]
              simp [h]
              omega
          | failure r e =>
              simp only [hout, List.length_cons, h, not_false_iff]
              simp [h]
              omega
  · intro tramiteId receiptRaw e form h
    unfold itemOutcome
    rw [if_neg h]
    rfl

/-- Witness for runLoop_converts_exceptions: a throwing lookup becomes a
failure entry for the receipt "MSC123". -/
theorem runLoop_converts_exceptions_witness :
    jsTrim ("MSC123") ≠ ""
    ∧ itemOutcome { direct := Except.error ("net down"), form := Except.ok ("x") }
        (some 7) ("MSC123") = Outcome.failure (jsTrim ("MSC123")) ("net down") :=
  ⟨by decide,
   (runLoop_converts_exceptions []).2 (some 7) "MSC123" "net down"
     (Except.ok "x") (by decide)⟩

/-- C3 (amended): in the soft-fail variant (getQueueFromApi plus the main
IIFE gate), a non-2xx response, a network error and a malformed 2xx body each
yield an empty item list and a clean exit with code 0; the claim fails for
the hard-fail variant at lines 743–754 (see
variant3_queue_fetch_hard_fails). -/
theorem getQueueFromApi_soft_fail :
    (∀ (status : Nat) (body : String),
        normalizeQueue (getQueueFromApi (ApiResp.httpError status body)) = []
        ∧ variant1QueueExit (ApiResp.httpError status body) = some 0)
    ∧ (∀ msg : String,
        normalizeQueue (getQueueFromApi (ApiResp.networkError msg)) = []
        ∧ variant1QueueExit (ApiResp.networkError msg) = some 0)
    ∧ (normalizeQueue (getQueueFromApi ApiResp.malformedBody) = []
        ∧ variant1QueueExit ApiResp.malformedBody = some 0) :=
  ⟨fun _ _ => ⟨rfl, rfl⟩, fun _ => ⟨rfl, rfl⟩, rfl, rfl⟩

/-- C3 counterexample: in the variant at uscis_check.cjs lines 743–754 a
non-2xx queue response is FATAL — the run exits with code 1, not with the
claimed empty-list exit 0. -/
theorem variant3_queue_fetch_hard_fails :
    variant3QueueExit (ApiResp.httpError 500 ("Server Error")) = some 1
    ∧ variant3QueueExit (ApiResp.httpError 500 ("Server Error")) ≠ some 0 :=
  ⟨rfl, by decide⟩

/-- C4 (amended): in the part_001 variant the two report POSTs have
asymmetric severity — with a nonempty success batch, a failing success-batch
POST makes the run exit 1, while the run exits 0 whenever the success POST
succeeds, no matter how the failure-batch POST fares.  (In the reportToApi
variant both report failures are merely logged: see
reportToApi_swallows_success_report_failure.) -/
theorem part001_report_asymmetry (nSuccess nFailed : Nat) (e : String)
    (postF : Except String Unit) :
    (0 < nSuccess → part001ExitCode nSuccess nFailed (Except.error e) postF = 1)
    ∧ part001ExitCode nSuccess nFailed (Except.ok ()) postF = 0 := by
  constructor
  · intro h
    unfold part001ExitCode part001ReportPhase
    rw [if_pos h]
  · unfold part001ExitCode part001ReportPhase
    cases postF <;> by_cases hs : 0 < nSuccess <;> by_cases hf : 0 < nFailed <;>
      simp [hs, hf]

/-- Witness for part001_report_asymmetry: one success item and one failure
item; a failing success POST exits 1, a failing failure POST still exits 0. -/
theorem part001_report_asymmetry_witness :
    part001ExitCode 1 1 (Except.error ("boom")) (Except.ok ()) = 1
    ∧ part001ExitCode 1 1 (Except.ok ()) (Except.error ("boom")) = 0 :=
  ⟨(part001_report_asymmetry 1 1 "boom" (Except.ok ())).1 (by decide),
   (part001_report_asymmetry 1 1 "boom" (Except.error "boom")).2⟩

/-- C4 counterexample: in the reportToApi variant a failing success-batch
POST is only logged — the run still completes with exit code 0, against the
claim that it must surface a non-zero/critical state. -/
theorem reportToApi_swallows_success_report_failure :
    (variant3ReportRun 3 0 (Except.error ("ECONNREFUSED"))
        (Except.ok { ok := true, status := 200 })).1 = 0
    ∧ (variant3ReportRun 3 0 (Except.error ("ECONNREFUSED"))
        (Except.ok { ok := true, status := 200 })).2
      = [("Reporting 3 items to report..."),
         ("Network Error: Could not report to report: ECONNREFUSED")] := by
  constructor <;> rfl

/-- C6 (amended): a Success always carries at least 200 characters of
reported content, but a matched container with short inner content does not
force Failed — extraction falls back to the full page, and the item succeeds
whenever the fallback meets the threshold (see
short_container_can_still_succeed). -/
theorem classifyScrape_success_needs_length (containers : List (Option String))
    (fullHtml html : String)
    (h : classifyScrape containers fullHtml = Except.ok html) :
    200 ≤ html.length := by
  unfold classifyScrape at h
  by_cases hc : fetchCaseHtmlResult containers fullHtml = ""
      ∨ (fetchCaseHtmlResult containers fullHtml).length < 200
  · rw [if_pos hc] at h
    exact absurd h (by simp)
  · rw [if_neg hc] at h
    push_neg at hc
    obtain ⟨h1, h2⟩ := hc
    have hv : fetchCaseHtmlResult containers fullHtml = html := by
      simpa using h
    rw [hv] at h2
    omega

set_option maxRecDepth 10000 in
/-- Witness for classifyScrape_success_needs_length: a 300-character page is
accepted and indeed meets the threshold. -/
theorem classifyScrape_success_needs_length_witness :
    classifyScrape [] longHtml = Except.ok longHtml ∧ 200 ≤ longHtml.length :=
  ⟨rfl, classifyScrape_success_needs_length [] longHtml longHtml rfl⟩

set_option maxRecDepth 10000 in
/-- C6 counterexample: a matched result container with fewer than 200
characters of inner content is not classified Failed — extraction falls back
to the long full page and the item is reported as a Success. -/
theorem short_container_can_still_succeed :
    (jsTrim ("<div>too short</div>")).length < 200
    ∧ classifyScrape [some ("<div>too short</div>")] longHtml
      = Except.ok longHtml :=
  ⟨by decide, rfl⟩

end USCIS
